import Mathlib

set_option linter.unusedVariables false

/-!
Verification of the LexoHub document classification and extraction lambdas.

Shallow embedding of:
  * `src/aws/lambda/lambda0-classification/index.py`
  * `src/aws/lambda/tier1-simple-extraction/index.py`

External collaborators (S3, DynamoDB, SQS, Textract, PyMuPDF/fitz, the
system clock) are modelled as explicit inputs: the value a library call
returned, or the truthiness the Python code branches on, is a parameter of
the embedded function.  Confidence scores are rationals; Python decimal
literals such as `0.85` denote the same rationals here.
-/

namespace LexoHub

/-! ## Python string primitives used by the source -/

/-- Decimal digit character, `chr(48 + n % 10)`. -/
def digitChar (n : Nat) : Char := Char.ofNat (48 + n % 10)

/-- Decimal rendering of a natural number, as Python `str` produces it. -/
def natStrL (n : Nat) : List Char :=
  if h : n < 10 then [digitChar n]
  else natStrL (n / 10) ++ [digitChar (n % 10)]
  decreasing_by
    exact Nat.div_lt_self (Nat.pos_of_ne_zero (by omega)) (by omega)

/-- Decimal rendering of an integer, as Python `str`/f-string formatting
produces it: an optional minus sign followed by the digits. -/
def intStrL (i : Int) : List Char :=
  if i < 0 then '-' :: natStrL (-i).toNat else natStrL i.toNat

/-- Python `s.split('/')`: pieces between slashes, empty pieces kept, and
`[""]` on the empty string. -/
def splitSlash : List Char → List (List Char)
  | [] => [[]]
  | c :: t =>
      let r := splitSlash t
      if c = '/' then [] :: r
      else match r with
        | h :: rs => (c :: h) :: rs
        | [] => [[c]]

/-- Python `key.split('/')[-1]`: the final path component. -/
def pyBasename (key : String) : String := String.mk ((splitSlash key.data).getLastD [])

/-- Python `c.lower()` character-wise (ASCII, which is all the source uses). -/
def pyLower (s : String) : String := String.mk (s.data.map Char.toLower)

/-! ## lambda0-classification: header analysis and the tier decision policy -/

/-- Result of `analyze_document_header` (the dict built at lines 159-199). -/
structure HeaderAnalysis where
  page_count : Nat
  has_tables : Bool
  has_forms : Bool
  confidence : ℚ
  type : String
  deriving DecidableEq, Repr

/-- What the classification lambda observes from `fitz` about an opened
document's first page: the page count, the lowercase-able page text, and the
truthiness of `find_tables()` / `widgets()` results. -/
structure FitzDocH where
  page_count : Nat
  first_text : String
  tables_truthy : Bool
  widgets_truthy : Bool

/-- Prefix test over char lists (used to embed Python `in` and `re.search`). -/
def isPref : List Char → List Char → Bool
  | [], _ => true
  | _ :: _, [] => false
  | n :: ns, c :: cs => decide (n = c) && isPref ns cs

/-- `needle` occurs contiguously somewhere in `hay`. -/
def subInfix (needle hay : List Char) : Bool :=
  match hay with
  | [] => needle.isEmpty
  | _ :: t => isPref needle hay || subInfix needle t

/-- Python `needle in hay` substring containment on strings. -/
def pyInStr (needle hay : String) : Bool :=
  subInfix needle.data hay.data

/-- `any(keyword in text for keyword in kws)`. -/
def anyKeyword (kws : List String) (text : String) : Bool :=
  kws.any (fun k => pyInStr k text)

/-- `analyze_document_header` (lines 155-200).  The `fitz.open` call either
raises (`Except.error`) or yields the first-page observations `FitzDocH`. -/
def analyze_document_header (r : Except Unit FitzDocH) : HeaderAnalysis :=
  match r with
  | .error _ =>
      { page_count := 0, has_tables := false, has_forms := false
        confidence := mkRat 3 10, type := "unknown" }
  | .ok d =>
      let base : HeaderAnalysis :=
        { page_count := d.page_count, has_tables := false, has_forms := false
          confidence := mkRat 6 10, type := "unknown" }
      if d.page_count > 0 then
        let low := pyLower d.first_text
        let withType :=
          if anyKeyword ["invoice", "bill to", "amount due"] low then
            { base with type := "invoice", confidence := mkRat 7 10 }
          else if anyKeyword ["agreement", "contract", "parties"] low then
            { base with type := "contract", confidence := mkRat 7 10 }
          else if anyKeyword ["court", "plaintiff", "defendant"] low then
            { base with type := "court_filing", confidence := mkRat 8 10 }
          else base
        { withType with has_tables := d.tables_truthy, has_forms := d.widgets_truthy }
      else base

/-- A template-cache entry as `check_template_cache` returns it
(lines 133-138). -/
structure TemplateMatch where
  template_id : String
  confidence : ℚ
  document_type : String
  deriving DecidableEq, Repr

/-- Whether rule 1 of the decision list fires: a cache entry is present and
its confidence exceeds 0.85. -/
def cacheQualifies (tm : Option TemplateMatch) : Bool :=
  match tm with
  | some t => decide (t.confidence > mkRat 85 100)
  | none => false

/-- `determine_processing_tier` (lines 202-219), the ordered decision list. -/
def determine_processing_tier (template_match : Option TemplateMatch)
    (filename_classification : Option String)
    (header_analysis : HeaderAnalysis) : Nat :=
  if cacheQualifies template_match then 0
  else if header_analysis.page_count ≤ 3 && !header_analysis.has_tables
      && !header_analysis.has_forms then 1
  else if header_analysis.has_tables || header_analysis.has_forms then 2
  else if header_analysis.page_count > 10 || header_analysis.confidence < mkRat 5 10 then 3
  else 2

/-- Rules 2-5 of the decision list as the spec states them (§4.4), for the
refinement comparison in C2: written from the spec's words, not the code. -/
def specTierRulesNoCache (a : HeaderAnalysis) : Nat :=
  if a.page_count ≤ 3 ∧ a.has_tables = false ∧ a.has_forms = false then 1
  else if a.has_tables = true ∨ a.has_forms = true then 2
  else if a.page_count > 10 ∨ a.confidence < mkRat 5 10 then 3
  else 2

/-! ## SHA-256, the `hashlib.sha256(x.encode()).hexdigest()` of the source

Words are naturals taken modulo `2 ^ 32 = 4294967296`. -/

/-- Right rotation of a 32-bit word. -/
def rotr32 (k n : Nat) : Nat := ((n >>> k) ||| (n <<< (32 - k))) % 4294967296

/-- SHA-256 `Ch`. -/
def shaCh (x y z : Nat) : Nat := (x &&& y) ^^^ ((x ^^^ 4294967295) &&& z)

/-- SHA-256 `Maj`. -/
def shaMaj (x y z : Nat) : Nat := (x &&& y) ^^^ (x &&& z) ^^^ (y &&& z)

/-- SHA-256 `Σ0`. -/
def shaBigS0 (x : Nat) : Nat := rotr32 2 x ^^^ rotr32 13 x ^^^ rotr32 22 x

/-- SHA-256 `Σ1`. -/
def shaBigS1 (x : Nat) : Nat := rotr32 6 x ^^^ rotr32 11 x ^^^ rotr32 25 x

/-- SHA-256 `σ0`. -/
def shaSmallS0 (x : Nat) : Nat := rotr32 7 x ^^^ rotr32 18 x ^^^ (x >>> 3)

/-- SHA-256 `σ1`. -/
def shaSmallS1 (x : Nat) : Nat := rotr32 17 x ^^^ rotr32 19 x ^^^ (x >>> 10)

/-- The 64 round constants. -/
def shaK : List Nat :=
  [1116352408, 1899447441, 3049323471, 3921009573, 961987163,
   1508970993, 2453635748, 2870763221, 3624381080, 310598401,
   607225278, 1426881987, 1925078388, 2162078206, 2614888103,
   3248222580, 3835390401, 4022224774, 264347078, 604807628,
   770255983, 1249150122, 1555081692, 1996064986, 2554220882,
   2821834349, 2952996808, 3210313671, 3336571891, 3584528711,
   113926993, 338241895, 666307205, 773529912, 1294757372,
   1396182291, 1695183700, 1986661051, 2177026350, 2456956037,
   2730485921, 2820302411, 3259730800, 3345764771, 3516065817,
   3600352804, 4094571909, 275423344, 430227734, 506948616,
   659060556, 883997877, 958139571, 1322822218, 1537002063,
   1747873779, 1955562222, 2024104815, 2227730452, 2361852424,
   2428436474, 2756734187, 3204031479, 3329325298]

/-- The initial hash state. -/
def shaH0 : List Nat :=
  [1779033703, 3144134277, 1013904242, 2773480762,
   1359893119, 2600822924, 528734635, 1541459225]

/-- UTF-8 encoding of one character (`str.encode()`). -/
def utf8Bytes (c : Char) : List Nat :=
  let n := c.toNat
  if n < 0x80 then [n]
  else if n < 0x800 then [0xC0 ||| (n >>> 6), 0x80 ||| (n &&& 0x3F)]
  else if n < 0x10000 then
    [0xE0 ||| (n >>> 12), 0x80 ||| ((n >>> 6) &&& 0x3F), 0x80 ||| (n &&& 0x3F)]
  else
    [0xF0 ||| (n >>> 18), 0x80 ||| ((n >>> 12) &&& 0x3F),
     0x80 ||| ((n >>> 6) &&& 0x3F), 0x80 ||| (n &&& 0x3F)]

/-- UTF-8 bytes of a string. -/
def strBytes (s : String) : List Nat := (s.data.map utf8Bytes).flatten

/-- SHA-256 padding: `0x80`, zeros to 56 mod 64, then the bit length as
eight big-endian bytes. -/
def shaPad (msg : List Nat) : List Nat :=
  let len := msg.length
  let bitLen := 8 * len
  msg ++ [128] ++ List.replicate ((119 - len % 64) % 64) 0 ++
    ([56, 48, 40, 32, 24, 16, 8, 0].map (fun k => (bitLen >>> k) % 256))

/-- Split into 64-byte chunks (fuel-driven so that it reduces in the
kernel; the fuel is the list length, ample since each step drops 64). -/
def chunk64 : Nat → List Nat → List (List Nat)
  | 0, _ => []
  | _, [] => []
  | fuel + 1, l => l.take 64 :: chunk64 fuel (l.drop 64)

/-- The sixteen initial 32-bit big-endian words of a chunk. -/
def wordsOfChunk (c : List Nat) : List Nat :=
  (List.range 16).map fun i =>
    c.getD (4 * i) 0 * 16777216 + c.getD (4 * i + 1) 0 * 65536 +
      c.getD (4 * i + 2) 0 * 256 + c.getD (4 * i + 3) 0

/-- One message-schedule extension step: appends word `W[t]` computed from
`W[t-2]`, `W[t-7]`, `W[t-15]`, `W[t-16]`. -/
def schedExt (w : List Nat) : List Nat :=
  w ++ [(shaSmallS1 (w.getD (w.length - 2) 0) + w.getD (w.length - 7) 0 +
         shaSmallS0 (w.getD (w.length - 15) 0) + w.getD (w.length - 16) 0) % 4294967296]

/-- Iterate the schedule extension. -/
def schedule : Nat → List Nat → List Nat
  | 0, w => w
  | n + 1, w => schedule n (schedExt w)

/-- One compression round on the eight-word working state. -/
def shaRound (st : List Nat) (kw : Nat × Nat) : List Nat :=
  match st with
  | [a, b, c, d, e, f, g, h] =>
      let t1 := (h + shaBigS1 e + shaCh e f g + kw.1 + kw.2) % 4294967296
      let t2 := (shaBigS0 a + shaMaj a b c) % 4294967296
      [(t1 + t2) % 4294967296, a, b, c, (d + t1) % 4294967296, e, f, g]
  | other => other

/-- Compress one 64-byte chunk into the hash state. -/
def shaCompress (h : List Nat) (chunkBytes : List Nat) : List Nat :=
  let w := schedule 48 (wordsOfChunk chunkBytes)
  let st := (shaK.zip w).foldl shaRound h
  (h.zip st).map fun p => (p.1 + p.2) % 4294967296

/-- SHA-256 digest of a byte sequence, as eight 32-bit words. -/
def sha256Words (msg : List Nat) : List Nat :=
  let padded := shaPad msg
  (chunk64 padded.length padded).foldl shaCompress shaH0

/-- Lowercase hex digit. -/
def hexChar (n : Nat) : Char :=
  if n < 10 then Char.ofNat (48 + n) else Char.ofNat (87 + n % 16)

/-- Eight hex digits of a 32-bit word, most significant nibble first. -/
def wordHex (n : Nat) : List Char :=
  (List.range 8).map fun i => hexChar ((n >>> (28 - 4 * i)) % 16)

/-- `hashlib.sha256(s.encode()).hexdigest()`. -/
def sha256hex (s : String) : String :=
  String.mk ((sha256Words (strBytes s)).map wordHex).flatten

/-! ## lambda0-classification: the fingerprint generator -/

/-- What `generate_structural_hash` observes from `fitz` about an opened
document: the first page's text blocks (`none` models a block without a
`"lines"` key; a line is represented by its bounding box's truncated
top-left integer coordinates), the page count, and the first page's
truncated integer width and height. -/
structure FitzStruct where
  blocks : List (Option (List (Int × Int)))
  page_count : Nat
  width : Int
  height : Int

/-- Python `"|".join`. -/
def joinBar : List (List Char) → List Char
  | [] => []
  | [x] => x
  | x :: y :: t => x ++ '|' :: joinBar (y :: t)

/-- One line's feature, `f"{int(bbox[0])},{int(bbox[1])}"`. -/
def coordFeature (p : Int × Int) : List Char := intStrL p.1 ++ ',' :: intStrL p.2

/-- The `structural_features` list (lines 97-111): per-line coordinates of
the first five blocks that carry lines, then `pages:`, `width:` and
`height:` entries. -/
def featureElems (d : FitzStruct) : List (List Char) :=
  ((d.blocks.take 5).map fun b =>
      match b with
      | none => []
      | some ls => ls.map coordFeature).flatten
    ++ ["pages:".data ++ natStrL d.page_count,
        "width:".data ++ intStrL d.width,
        "height:".data ++ intStrL d.height]

/-- `"|".join(structural_features)`; on a zero-page document nothing is
collected and the feature string is empty. -/
def featureStringL (d : FitzStruct) : List Char :=
  if d.page_count > 0 then joinBar (featureElems d) else []

/-- The feature string as a string. -/
def featureString (d : FitzStruct) : String := String.mk (featureStringL d)

/-- `generate_structural_hash` (lines 93-120): hash of the feature string,
or of the local file path when `fitz` raised. -/
def generate_structural_hash (res : Except Unit FitzStruct)
    (file_path : String) : String :=
  match res with
  | .ok d => sha256hex (featureString d)
  | .error _ => sha256hex file_path

/-- `classify_document` line 51: `local_path = f'/tmp/{key.split("/")[-1]}'`. -/
def localPath (key : String) : String := "/tmp/" ++ pyBasename key

/-! ## lambda0-classification: the template cache -/

/-- A row of the template-cache table; `confidence` and `documentType` are
read with dict defaults, so they are optional. -/
structure CacheRow where
  structuralHash : String
  confidence : Option ℚ
  documentType : Option String

/-- `check_template_cache` (lines 122-144).  The backend input is either a
query failure (degrading to no match) or the table's rows for all keys,
most recent first; the query keeps the rows whose key equals the hash and
`Limit=1` takes the first. -/
def check_template_cache (backend : Except Unit (List CacheRow))
    (sh : String) : Option TemplateMatch :=
  match backend with
  | .error _ => none
  | .ok rows =>
      match rows.filter (fun r => r.structuralHash = sh) with
      | [] => none
      | r :: _ =>
          some { template_id := r.structuralHash
                 confidence := r.confidence.getD 0
                 document_type := r.documentType.getD "unknown" }

/-! ## lambda0-classification: the filename patterns

`FILENAME_PATTERNS` (lines 19-25) are five regexes applied with
`re.search` to the lowercased basename.  Each is a keyword alternation,
an optional `-` or `_` separator, and a suffix requirement: `\d+` for
`invoice`, `[a-z0-9]+` for `contract`, and nothing for the other three
(their trailing `[-_]?` matches the empty string).  `re.search` succeeds
iff the pattern matches starting at some position of the subject. -/

/-- `stripKw kw l`: if `kw` is a prefix of `l`, the remainder. -/
def stripKw : List Char → List Char → Option (List Char)
  | [], r => some r
  | _ :: _, [] => none
  | k :: ks, c :: cs => if c = k then stripKw ks cs else none

/-- The next character satisfies `p`. -/
def headIs (p : Char → Bool) : List Char → Bool
  | [] => false
  | c :: _ => p c

/-- `[-_]?X` where `X` is the class `p`: an optional single separator, then
a character of the class (with regex backtracking semantics; a separator
character is never in either class used below). -/
def afterSep (p : Char → Bool) (l : List Char) : Bool :=
  match l with
  | [] => false
  | c :: rest => if c = '-' ∨ c = '_' then headIs p rest else p c

/-- One pattern matched at the current position: some keyword of the
alternation is a prefix here, followed by the suffix requirement (`none`
when the pattern needs nothing after the keyword). -/
def patMatchAt (kws : List (List Char)) (suf : Option (Char → Bool))
    (l : List Char) : Bool :=
  kws.any fun kw =>
    match stripKw kw l with
    | none => false
    | some r => match suf with | none => true | some p => afterSep p r

/-- `re.search`: the pattern matches at some position of the subject. -/
def reSearch (kws : List (List Char)) (suf : Option (Char → Bool)) :
    List Char → Bool
  | [] => false
  | c :: t => patMatchAt kws suf (c :: t) || reSearch kws suf t

/-- The character class `[a-z0-9]` of the contract pattern. -/
def isLowerAlnum (c : Char) : Bool := c.isDigit || ('a' ≤ c && c ≤ 'z')

/-- `(?i)(invoice|bill|receipt)[-_]?\d+`. -/
def matchesInvoicePat (l : List Char) : Bool :=
  reSearch ["invoice".data, "bill".data, "receipt".data] (some Char.isDigit) l

/-- `(?i)(contract|agreement)[-_]?[a-z0-9]+`. -/
def matchesContractPat (l : List Char) : Bool :=
  reSearch ["contract".data, "agreement".data] (some isLowerAlnum) l

/-- `(?i)(motion|petition|complaint|answer)[-_]?`. -/
def matchesCourtPat (l : List Char) : Bool :=
  reSearch ["motion".data, "petition".data, "complaint".data, "answer".data] none l

/-- `(?i)(letter|memo|email)[-_]?`. -/
def matchesCorrPat (l : List Char) : Bool :=
  reSearch ["letter".data, "memo".data, "email".data] none l

/-- `(?i)(pleading|brief|memorandum)[-_]?`. -/
def matchesPleadingPat (l : List Char) : Bool :=
  reSearch ["pleading".data, "brief".data, "memorandum".data] none l

/-- `classify_by_filename` (lines 146-153): first matching pattern of the
dict, in insertion order; no match gives `None`. -/
def classify_by_filename (key : String) : Option String :=
  let filename := pyLower (pyBasename key)
  if matchesInvoicePat filename.data then some "invoice"
  else if matchesContractPat filename.data then some "contract"
  else if matchesCourtPat filename.data then some "court_filing"
  else if matchesCorrPat filename.data then some "correspondence"
  else if matchesPleadingPat filename.data then some "pleading"
  else none

/-! ## tier1-simple-extraction: confidence aggregation -/

/-- A Textract result block as the completion path consumes it: a type tag
(`LINE`/`WORD`/other), optional text, optional confidence (the code reads
`block.get('Text', '')` and `block.get('Confidence', 0)`). -/
structure TBlock where
  blockType : String
  text : Option String
  confidence : Option ℚ
  deriving Repr

/-- `extract_text_from_results` (lines 123-130): line-level texts joined by
newlines, in emission order. -/
def extract_text_from_results (blocks : List TBlock) : String :=
  String.intercalate "\n"
    ((blocks.filter (fun b => b.blockType = "LINE")).map (fun b => b.text.getD ""))

/-- Round half away is not what Python uses; `round(x, 4)` rounds to the
nearest multiple of `1/10000`, ties to even (banker's rounding). -/
def roundHalfEven (x : ℚ) : ℤ :=
  let f : ℤ := ⌊x⌋
  let r : ℚ := x - f
  if r < mkRat 1 2 then f
  else if r > mkRat 1 2 then f + 1
  else if f % 2 = 0 then f else f + 1

/-- Python `round(x, 4)`. -/
def pyRound4 (x : ℚ) : ℚ := mkRat (roundHalfEven (x * 10000)) 10000

/-- `calculate_confidence_score` (lines 132-148). -/
def calculate_confidence_score (blocks : List TBlock) : ℚ :=
  if blocks.isEmpty then 0
  else
    let confidences := (blocks.filter
      (fun b => b.blockType = "LINE" ∨ b.blockType = "WORD")).map
        (fun b => b.confidence.getD 0)
    if confidences.isEmpty then 0
    else pyRound4 ((confidences.sum / confidences.length) / 100)

/-- The aggregate confidence as the spec words it (§4.6 and §8): the simple
mean of all line- and word-level confidence scores, normalized to `[0,1]`
and rounded to 4 decimal places, `0.0` when no such scores exist.  Written
from the spec for the refinement comparison in C6. -/
def specAggregateConfidence (blocks : List TBlock) : ℚ :=
  let scores := (blocks.filter
    (fun b => b.blockType = "LINE" ∨ b.blockType = "WORD")).map
      (fun b => b.confidence.getD 0)
  if scores.isEmpty then 0
  else pyRound4 ((scores.sum / scores.length) / 100)

/-! ## tier1-simple-extraction: the metadata merge-update -/

/-- The persisted per-document metadata row (the DynamoDB item keyed by
`documentId`), one optional slot per attribute `update_metadata` can set. -/
structure MetaState where
  status : Option String
  updatedAt : Option String
  jobId : Option String
  processingTier : Option Nat
  classification : Option String
  extractedText : Option String
  confidence : Option ℚ
  errorMessage : Option String
  completionTime : Option String
  deriving DecidableEq, Repr

/-- The metadata row before any update: no attributes present. -/
def emptyMeta : MetaState :=
  { status := none, updatedAt := none, jobId := none, processingTier := none
    classification := none, extractedText := none, confidence := none
    errorMessage := none, completionTime := none }

/-- The arguments of one `update_metadata` call (lines 150-202): the
mandatory `status`, the clock reading the function writes into `updatedAt`,
and one optional slot per keyword argument. -/
structure MetaUpdate where
  status : String
  now : String
  job_id : Option String := none
  tier : Option Nat := none
  classification : Option String := none
  extracted_text : Option String := none
  confidence : Option ℚ := none
  error : Option String := none
  completion_time : Option String := none
  deriving DecidableEq, Repr

/-- `update_metadata`: the `SET` expression writes `status`, `updatedAt`,
and exactly the supplied keyword arguments; every other attribute of the
item is left untouched. -/
def update_metadata (u : MetaUpdate) (s : MetaState) : MetaState :=
  { status := some u.status
    updatedAt := some u.now
    jobId := match u.job_id with | some v => some v | none => s.jobId
    processingTier := match u.tier with | some v => some v | none => s.processingTier
    classification := match u.classification with | some v => some v | none => s.classification
    extractedText := match u.extracted_text with | some v => some v | none => s.extractedText
    confidence := match u.confidence with | some v => some v | none => s.confidence
    errorMessage := match u.error with | some v => some v | none => s.errorMessage
    completionTime := match u.completion_time with | some v => some v | none => s.completionTime }

/-- The update `handle_textract_completion` issues on a successful job
(lines 85-92): status `COMPLETED`, extracted text, confidence, tier 1 and a
completion timestamp; no other keyword argument is supplied. -/
def completionUpdate (text : String) (conf : ℚ) (ctime now : String) : MetaUpdate :=
  { status := "COMPLETED", now := now
    extracted_text := some text, confidence := some conf
    tier := some 1, completion_time := some ctime }

/-- The update `start_textract_job` issues once Textract accepted the job
(lines 49-55): status `PROCESSING`, job id, tier 1 and the classification
snapshot. -/
def startUpdate (jobId cls now : String) : MetaUpdate :=
  { status := "PROCESSING", now := now
    job_id := some jobId, tier := some 1, classification := some cls }

/-- The update the failure path of `start_textract_job` issues
(lines 61-65): status `FAILED` plus the error message. -/
def failUpdate (err now : String) : MetaUpdate :=
  { status := "FAILED", now := now, error := some err }

/-! ## tier1-simple-extraction: the coordinator as a state machine -/

/-- One coordinator invocation for a fixed document id.  A `start` event is
a routing message consumed by `start_textract_job`; `ok` tells whether the
external `start_document_text_detection` call succeeded and, on failure,
the raised error text.  A `completion` event is a Textract notification
consumed by `handle_textract_completion`; `succeeded` is whether `Status`
is `SUCCEEDED`, and `fetchOk` whether fetching the result pages succeeded
(on a fetch error the handler raises before writing anything). -/
inductive CoordEvent where
  | start (ok : Except String String) (cls : String) (now : String)
  | completion (succeeded : Bool) (fetchOk : Bool) (text : String) (conf : ℚ)
      (ctime : String) (now : String)
  deriving Repr

/-- Effect of one invocation on the persisted metadata row. -/
def coordStep (s : MetaState) (e : CoordEvent) : MetaState :=
  match e with
  | .start (.ok jobId) cls now => update_metadata (startUpdate jobId cls now) s
  | .start (.error err) _ now => update_metadata (failUpdate err now) s
  | .completion succeeded fetchOk text conf ctime now =>
      if succeeded then
        if fetchOk then update_metadata (completionUpdate text conf ctime now) s
        else s
      else s

/-- The trajectory of metadata rows along a sequence of invocations,
including the initial row. -/
def coordRun (s : MetaState) : List CoordEvent → List MetaState
  | [] => [s]
  | e :: es => s :: coordRun (coordStep s e) es

/-- The persisted statuses along a trajectory. -/
def statuses (l : List MetaState) : List (Option String) := l.map (·.status)

/-- A status is terminal when it is `COMPLETED` or `FAILED`. -/
def isTerminal (st : Option String) : Bool :=
  st = some "COMPLETED" || st = some "FAILED"

/-- No re-entry: once a terminal status is persisted, `PROCESSING` never
appears again later in the trajectory. -/
def noReenterB : List (Option String) → Bool
  | [] => true
  | a :: t =>
      (!isTerminal a || t.all (fun b => !(b = some "PROCESSING"))) && noReenterB t

/-- Number of adjacent transitions from `PROCESSING` to a terminal status
along a status trajectory. -/
def countPTerm : List (Option String) → Nat
  | a :: b :: t =>
      (if a = some "PROCESSING" ∧ isTerminal b then 1 else 0) + countPTerm (b :: t)
  | _ => 0

/-- Whether an invocation is a completion notification. -/
def isCompletionEvt : CoordEvent → Bool
  | .completion _ _ _ _ _ _ => true
  | .start _ _ _ => false

/-- A trace exercising at-least-once delivery of the start message: the
routing message is re-delivered after the job completed. -/
def dupStartTrace : List CoordEvent :=
  [CoordEvent.start (Except.ok "job-1") "cls" "t0",
   CoordEvent.completion true true "text" (mkRat 99 100) "t1c" "t1",
   CoordEvent.start (Except.ok "job-1") "cls" "t2"]

/-! ## Bridging lemmas: the `mkRat` constants are the source's decimal
literals -/

theorem mkRat_85100 : mkRat 85 100 = (0.85 : ℚ) := by norm_num

theorem mkRat_510 : mkRat 5 10 = (0.5 : ℚ) := by norm_num

theorem mkRat_310 : mkRat 3 10 = (0.3 : ℚ) := by norm_num

theorem mkRat_610 : mkRat 6 10 = (0.6 : ℚ) := by norm_num

theorem mkRat_710 : mkRat 7 10 = (0.7 : ℚ) := by norm_num

theorem mkRat_810 : mkRat 8 10 = (0.8 : ℚ) := by norm_num

/-! ## The tier decision policy -/

theorem det_eq_zero_iff (tm : Option TemplateMatch) (fc : Option String)
    (ha : HeaderAnalysis) :
    determine_processing_tier tm fc ha = 0 ↔ cacheQualifies tm = true := by
  unfold determine_processing_tier
  split_ifs with h1 h2 h3 h4 <;> simp_all

theorem cacheQualifies_iff (tm : Option TemplateMatch) :
    cacheQualifies tm = true ↔ ∃ e, tm = some e ∧ mkRat 85 100 < e.confidence := by
  cases tm <;> simp [cacheQualifies]

/-- C1: for every cache entry (or absence), filename type (or absence) and
header analysis, the tier decision lies in {0,1,2,3}; it is 0 exactly when
a cache entry with confidence above 0.85 is present; and this rule
short-circuits the later rules, so cache confidence 0.9 with page count 20
still yields tier 0. -/
theorem tier_range_and_cache_short_circuit
    (tm : Option TemplateMatch) (fc : Option String) (ha : HeaderAnalysis) :
    determine_processing_tier tm fc ha ∈ ([0, 1, 2, 3] : List Nat)
    ∧ (determine_processing_tier tm fc ha = 0
        ↔ ∃ e, tm = some e ∧ mkRat 85 100 < e.confidence)
    ∧ (∀ ty, determine_processing_tier
        (some { template_id := "t1", confidence := 0.9, document_type := "invoice" })
        fc
        { page_count := 20, has_tables := false, has_forms := false
          confidence := 0.9, type := ty } = 0) := by
  refine ⟨?_, ?_, ?_⟩
  · unfold determine_processing_tier; split_ifs <;> simp
  · exact (det_eq_zero_iff tm fc ha).trans (cacheQualifies_iff tm)
  · intro ty
    rw [det_eq_zero_iff, cacheQualifies_iff]
    exact ⟨_, rfl, by rw [mkRat_85100]; norm_num⟩

theorem tier_range_and_cache_short_circuit_w :
    determine_processing_tier
      (some { template_id := "t1", confidence := mkRat 9 10, document_type := "invoice" })
      none
      { page_count := 20, has_tables := false, has_forms := false
        confidence := mkRat 9 10, type := "unknown" } = 0 :=
  (tier_range_and_cache_short_circuit
      (some { template_id := "t1", confidence := mkRat 9 10, document_type := "invoice" })
      none
      { page_count := 20, has_tables := false, has_forms := false
        confidence := mkRat 9 10, type := "unknown" }).2.1.mpr
    ⟨_, rfl, by decide⟩

/-- C2: without a qualifying cache entry the remaining rules fire in order
(first satisfied rule wins): page count ≤ 3 with no tables and no forms
gives tier 1; otherwise tables or forms give tier 2; otherwise page count
over 10 or confidence below 0.5 gives tier 3; otherwise tier 2.  In
particular page count 2 without structure gives 1, page count 5 with
tables gives 2 for every confidence, and page count 15 without structure
at confidence 0.9 gives 3. -/
theorem tier_rules_without_cache
    (tm : Option TemplateMatch) (fc : Option String) (ha : HeaderAnalysis)
    (h : cacheQualifies tm = false) :
    determine_processing_tier tm fc ha = specTierRulesNoCache ha
    ∧ (∀ c ty, determine_processing_tier tm fc
        { page_count := 2, has_tables := false, has_forms := false
          confidence := c, type := ty } = 1)
    ∧ (∀ c ty, determine_processing_tier tm fc
        { page_count := 5, has_tables := true, has_forms := false
          confidence := c, type := ty } = 2)
    ∧ (∀ ty, determine_processing_tier tm fc
        { page_count := 15, has_tables := false, has_forms := false
          confidence := 0.9, type := ty } = 3) := by
  refine ⟨?_, ?_, ?_, ?_⟩
  · unfold determine_processing_tier specTierRulesNoCache
    rw [h]
    obtain ⟨pc, ht, hf, c, ty⟩ := ha
    cases ht <;> cases hf <;> simp
  · intro c ty
    unfold determine_processing_tier
    rw [h]
    simp
  · intro c ty
    unfold determine_processing_tier
    rw [h]
    simp
  · intro ty
    unfold determine_processing_tier
    rw [h]
    norm_num [mkRat_510]

theorem tier_rules_without_cache_w :
    determine_processing_tier none none
      { page_count := 2, has_tables := false, has_forms := false
        confidence := mkRat 2 10, type := "u" } = 1
    ∧ determine_processing_tier none none
      { page_count := 5, has_tables := true, has_forms := false
        confidence := mkRat 2 10, type := "u" } = 2
    ∧ determine_processing_tier none none
      { page_count := 15, has_tables := false, has_forms := false
        confidence := 0.9, type := "u" } = 3 :=
  ⟨(tier_rules_without_cache none none
      { page_count := 0, has_tables := false, has_forms := false
        confidence := 0, type := "" } rfl).2.1 _ _,
   (tier_rules_without_cache none none
      { page_count := 0, has_tables := false, has_forms := false
        confidence := 0, type := "" } rfl).2.2.1 _ _,
   (tier_rules_without_cache none none
      { page_count := 0, has_tables := false, has_forms := false
        confidence := 0, type := "" } rfl).2.2.2 _⟩

/-- C4 as claimed is false: the failure fallback of the analyzer (zero
pages, no tables, no forms, confidence 0.3) routes to tier 1, not tier 3 —
the page-count rule captures it before the low-confidence rule. -/
theorem fallback_not_tier3 :
    analyze_document_header (Except.error ()) =
      { page_count := 0, has_tables := false, has_forms := false
        confidence := mkRat 3 10, type := "unknown" }
    ∧ determine_processing_tier none none
        (analyze_document_header (Except.error ())) = 1
    ∧ ¬ determine_processing_tier none none
        (analyze_document_header (Except.error ())) = 3 := by
  decide

/-- C4 (amended): when first-page analysis fails the analyzer returns the
maximally conservative analysis (zero pages, no tables, no forms,
confidence 0.3, type undetermined), and feeding it into the tier policy
with no qualifying cache entry assigns tier 1: the page-count rule fires
on zero pages before the low-confidence rule can escalate. -/
theorem fallback_analysis_routes_tier1
    (tm : Option TemplateMatch) (fc : Option String)
    (h : cacheQualifies tm = false) :
    analyze_document_header (Except.error ()) =
      { page_count := 0, has_tables := false, has_forms := false
        confidence := (0.3 : ℚ), type := "unknown" }
    ∧ determine_processing_tier tm fc
        (analyze_document_header (Except.error ())) = 1 := by
  constructor
  · simp [analyze_document_header, mkRat_310]
  · unfold determine_processing_tier
    rw [h]
    simp [analyze_document_header]

theorem fallback_analysis_routes_tier1_w :
    determine_processing_tier none none
      (analyze_document_header (Except.error ())) = 1 :=
  (fallback_analysis_routes_tier1 none none rfl).2

theorem analyzeOk_confidence (d : FitzDocH) :
    (analyze_document_header (Except.ok d)).confidence = mkRat 6 10
    ∨ (analyze_document_header (Except.ok d)).confidence = mkRat 7 10
    ∨ (analyze_document_header (Except.ok d)).confidence = mkRat 8 10 := by
  simp only [analyze_document_header]
  split_ifs <;> simp

theorem determine_eq_three (tm : Option TemplateMatch) (fc : Option String)
    (ha : HeaderAnalysis) (h : cacheQualifies tm = false) :
    determine_processing_tier tm fc ha = 3 →
      ha.page_count > 10 ∨ ha.confidence < mkRat 5 10 := by
  unfold determine_processing_tier
  simp only [h, Bool.false_eq_true, if_false]
  split_ifs with c1 c2 c3 <;> intro h3
  · omega
  · omega
  · rcases (Bool.or_eq_true _ _).mp c3 with hp | hc
    · exact Or.inl (of_decide_eq_true hp)
    · exact Or.inr (of_decide_eq_true hc)
  · omega

/-- C10: without a qualifying cache entry, a tier-3 assignment implies the
header analysis reported page count over 10: the low-confidence disjunct
never fires, because a successful analysis yields confidence at least 0.6
and the failure fallback (confidence 0.3, zero pages) is captured by the
tier-1 rule first. -/
theorem tier3_only_by_page_count
    (r : Except Unit FitzDocH) (tm : Option TemplateMatch) (fc : Option String)
    (h : cacheQualifies tm = false) :
    (determine_processing_tier tm fc (analyze_document_header r) = 3 →
      (analyze_document_header r).page_count > 10)
    ∧ (∀ d, (0.6 : ℚ) ≤ (analyze_document_header (Except.ok d)).confidence) := by
  have conf_ge : ∀ d : FitzDocH,
      (0.6 : ℚ) ≤ (analyze_document_header (Except.ok d)).confidence := by
    intro d
    rcases analyzeOk_confidence d with hc | hc | hc <;> rw [hc] <;> norm_num
  refine ⟨?_, conf_ge⟩
  cases r with
  | error e =>
      intro h3
      have h1 : determine_processing_tier tm fc
          (analyze_document_header (Except.error e)) = 1 := by
        unfold determine_processing_tier
        rw [h]
        simp [analyze_document_header]
      omega
  | ok d =>
      intro h3
      rcases determine_eq_three tm fc _ h h3 with hp | hc
      · exact hp
      · exact absurd hc
          (not_lt.mpr (le_trans (by rw [mkRat_510]; norm_num) (conf_ge d)))

theorem tier3_only_by_page_count_w :
    (determine_processing_tier none none
        (analyze_document_header (Except.error ())) = 3 →
      (analyze_document_header (Except.error ())).page_count > 10)
    ∧ (0.6 : ℚ) ≤ (analyze_document_header
        (Except.ok ⟨1, "x", false, false⟩)).confidence :=
  ⟨(tier3_only_by_page_count (Except.error ()) none none rfl).1,
   (tier3_only_by_page_count (Except.error ()) none none rfl).2
     ⟨1, "x", false, false⟩⟩

/-! ## The metadata merge-update -/

/-- C3: applying the COMPLETED merge-update twice with identical field
values (status, extracted text, confidence, tier, completion time, and the
same clock reading for the bookkeeping `updatedAt`) leaves the persisted
metadata row unchanged after the second application: every attribute is
overwritten with the same value, none is duplicated or concatenated. -/
theorem completed_update_idempotent
    (s : MetaState) (text : String) (conf : ℚ) (ctime now : String) :
    update_metadata (completionUpdate text conf ctime now)
        (update_metadata (completionUpdate text conf ctime now) s)
      = update_metadata (completionUpdate text conf ctime now) s := rfl

/-- C7: the metadata update is a partial merge: every attribute whose
keyword argument is absent keeps its previous value, and an update that
supplies only status and job id does not erase a previously persisted
classification. -/
theorem update_metadata_sparse_merge :
    (∀ (s : MetaState) (u : MetaUpdate),
      (u.job_id = none → (update_metadata u s).jobId = s.jobId)
      ∧ (u.tier = none → (update_metadata u s).processingTier = s.processingTier)
      ∧ (u.classification = none →
          (update_metadata u s).classification = s.classification)
      ∧ (u.extracted_text = none →
          (update_metadata u s).extractedText = s.extractedText)
      ∧ (u.confidence = none → (update_metadata u s).confidence = s.confidence)
      ∧ (u.error = none → (update_metadata u s).errorMessage = s.errorMessage)
      ∧ (u.completion_time = none →
          (update_metadata u s).completionTime = s.completionTime))
    ∧ (∀ (s : MetaState) (st jid now : String),
        (update_metadata { status := st, now := now, job_id := some jid } s).classification
          = s.classification) := by
  constructor
  · intro s u
    refine ⟨?_, ?_, ?_, ?_, ?_, ?_, ?_⟩ <;> intro hn <;> simp [update_metadata, hn]
  · intro s st jid now
    rfl

theorem update_metadata_sparse_merge_w :
    (update_metadata { status := "COMPLETED", now := "t1" }
        { emptyMeta with classification := some "cls", jobId := some "j0" }).jobId
      = some "j0"
    ∧ (update_metadata { status := "PROCESSING", now := "t1", job_id := some "j1" }
        { emptyMeta with classification := some "cls" }).classification
      = some "cls" :=
  ⟨(update_metadata_sparse_merge.1
      { emptyMeta with classification := some "cls", jobId := some "j0" }
      { status := "COMPLETED", now := "t1" }).1 rfl,
   update_metadata_sparse_merge.2
      { emptyMeta with classification := some "cls" } "PROCESSING" "j1" "t1"⟩

/-! ## The coordinator status machine -/

theorem coordRun_cons (s : MetaState) (e : CoordEvent) (es : List CoordEvent) :
    coordRun s (e :: es) = s :: coordRun (coordStep s e) es := rfl

theorem coordRun_head_shape (s : MetaState) (l : List CoordEvent) :
    ∃ t, statuses (coordRun s l) = s.status :: t := by
  cases l <;> exact ⟨_, rfl⟩

theorem comp_step_status (s : MetaState) (e : CoordEvent)
    (he : isCompletionEvt e = true) :
    (coordStep s e).status = s.status ∨ (coordStep s e).status = some "COMPLETED" := by
  cases e with
  | start o c n => simp [isCompletionEvt] at he
  | completion succ fok text conf ctime now =>
      simp only [coordStep]
      split_ifs
      · exact Or.inr rfl
      · exact Or.inl rfl
      · exact Or.inl rfl

theorem comp_run_no_processing (comps : List CoordEvent) :
    ∀ s : MetaState, (∀ c ∈ comps, isCompletionEvt c = true) →
      s.status ≠ some "PROCESSING" →
      ∀ st ∈ statuses (coordRun s comps), st ≠ some "PROCESSING" := by
  induction comps with
  | nil =>
      intro s _ hs st hst
      simp only [coordRun, statuses, List.map_cons, List.map_nil,
        List.mem_singleton] at hst
      rw [hst]
      exact hs
  | cons e es ih =>
      intro s hc hs st hst
      rw [coordRun_cons] at hst
      simp only [statuses, List.map_cons, List.mem_cons] at hst
      rcases hst with h1 | h1
      · rw [h1]; exact hs
      · refine ih (coordStep s e)
          (fun c hm => hc c (List.mem_cons_of_mem e hm)) ?_ st h1
        rcases comp_step_status s e (hc e (List.mem_cons_self e es)) with h2 | h2
        · rw [h2]; exact hs
        · rw [h2]; simp

theorem comp_run_inv (comps : List CoordEvent) :
    ∀ s : MetaState, (∀ c ∈ comps, isCompletionEvt c = true) →
      noReenterB (statuses (coordRun s comps)) = true
      ∧ (s.status ≠ some "PROCESSING" →
          countPTerm (statuses (coordRun s comps)) = 0)
      ∧ countPTerm (statuses (coordRun s comps)) ≤ 1 := by
  induction comps with
  | nil =>
      intro s _
      refine ⟨?_, fun _ => rfl, ?_⟩
      · simp [coordRun, statuses, noReenterB]
      · simp [coordRun, statuses, countPTerm]
  | cons e es ih =>
      intro s hc
      have hce : isCompletionEvt e = true := hc e (List.mem_cons_self e es)
      have hces : ∀ c ∈ es, isCompletionEvt c = true :=
        fun c hm => hc c (List.mem_cons_of_mem e hm)
      have hstep := comp_step_status s e hce
      obtain ⟨tl, htl⟩ := coordRun_head_shape (coordStep s e) es
      have ihs := ih (coordStep s e) hces
      have hs2ne : s.status ≠ some "PROCESSING" →
          (coordStep s e).status ≠ some "PROCESSING" := by
        intro h
        rcases hstep with h1 | h1 <;> rw [h1]
        · exact h
        · simp
      have hrun : statuses (coordRun s (e :: es))
          = s.status :: (coordStep s e).status :: tl := by
        rw [coordRun_cons]
        show s.status :: statuses (coordRun (coordStep s e) es) = _
        rw [htl]
      have hzero : s.status ≠ some "PROCESSING" →
          countPTerm (statuses (coordRun s (e :: es))) = 0 := by
        intro hsne
        rw [hrun, countPTerm, if_neg (fun hx => hsne hx.1)]
        have h2 := ihs.2.1 (hs2ne hsne)
        rw [htl] at h2
        simp [h2]
      refine ⟨?_, hzero, ?_⟩
      · rw [coordRun_cons]
        show noReenterB (s.status :: statuses (coordRun (coordStep s e) es)) = true
        simp only [noReenterB, Bool.and_eq_true]
        refine ⟨?_, ihs.1⟩
        by_cases hterm : isTerminal s.status = true
        · have hsP : s.status ≠ some "PROCESSING" := by
            intro hP
            rw [hP] at hterm
            simp [isTerminal] at hterm
          rw [Bool.or_eq_true]
          right
          rw [List.all_eq_true]
          intro x hx
          have := comp_run_no_processing es (coordStep s e) hces (hs2ne hsP) x hx
          simpa using this
        · rw [Bool.or_eq_true]
          left
          simp [hterm]
      · by_cases hsP : s.status = some "PROCESSING"
        · rw [hrun, countPTerm]
          by_cases hterm : isTerminal (coordStep s e).status = true
          · have hne : (coordStep s e).status ≠ some "PROCESSING" := by
              intro hP
              rw [hP] at hterm
              simp [isTerminal] at hterm
            have h2 := ihs.2.1 hne
            rw [htl] at h2
            rw [h2]
            split_ifs <;> omega
          · have h2 := ihs.2.2
            rw [htl] at h2
            rw [if_neg (fun hx => hterm hx.2)]
            omega
        · rw [hzero hsP]
          omega

/-- C8 as claimed is false: under at-least-once delivery of both message
kinds, a duplicate start message delivered after the job completed moves
the persisted status from the terminal COMPLETED back to PROCESSING (the
coordinator writes without checking the current status). -/
theorem coordinator_reenters_processing :
    statuses (coordRun emptyMeta dupStartTrace)
      = [none, some "PROCESSING", some "COMPLETED", some "PROCESSING"]
    ∧ noReenterB (statuses (coordRun emptyMeta dupStartTrace)) = false := by
  decide

/-- C8 (amended): in every sequence consisting of at most one start
invocation followed by completion notifications (delivered at-least-once,
duplicates allowed), the persisted status transitions at most once from
PROCESSING to a terminal status and never returns to PROCESSING once
terminal.  A duplicated start delivery can re-enter PROCESSING, which the
code does not guard against. -/
theorem coordinator_status_monotone
    (e : CoordEvent) (comps : List CoordEvent)
    (hcomps : ∀ c ∈ comps, isCompletionEvt c = true) :
    (noReenterB (statuses (coordRun emptyMeta (e :: comps))) = true
      ∧ countPTerm (statuses (coordRun emptyMeta (e :: comps))) ≤ 1)
    ∧ (noReenterB (statuses (coordRun emptyMeta comps)) = true
      ∧ countPTerm (statuses (coordRun emptyMeta comps)) ≤ 1) := by
  have ih := comp_run_inv comps (coordStep emptyMeta e) hcomps
  obtain ⟨tl, htl⟩ := coordRun_head_shape (coordStep emptyMeta e) comps
  refine ⟨⟨?_, ?_⟩, (comp_run_inv comps emptyMeta hcomps).1,
    (comp_run_inv comps emptyMeta hcomps).2.2⟩
  · rw [coordRun_cons]
    show noReenterB (emptyMeta.status :: statuses (coordRun (coordStep emptyMeta e) comps)) = true
    simp only [noReenterB, Bool.and_eq_true]
    exact ⟨by simp [emptyMeta, isTerminal], ih.1⟩
  · rw [coordRun_cons]
    show countPTerm (emptyMeta.status :: statuses (coordRun (coordStep emptyMeta e) comps)) ≤ 1
    rw [htl, countPTerm, if_neg (by simp [emptyMeta])]
    have h2 := ih.2.2
    rw [htl] at h2
    omega

theorem coordinator_status_monotone_w :
    noReenterB (statuses (coordRun emptyMeta
      (CoordEvent.start (Except.ok "j") "c" "t0" ::
        [CoordEvent.completion true true "x" (mkRat 1 2) "tc" "t1",
         CoordEvent.completion true true "x" (mkRat 1 2) "tc" "t2"]))) = true :=
  (coordinator_status_monotone (CoordEvent.start (Except.ok "j") "c" "t0")
    [CoordEvent.completion true true "x" (mkRat 1 2) "tc" "t1",
     CoordEvent.completion true true "x" (mkRat 1 2) "tc" "t2"]
    (by decide)).1.1

/-! ## Confidence aggregation -/

/-- C6: the aggregate confidence is the simple mean of the confidence
scores of the LINE and WORD blocks, divided by 100 and rounded to 4
decimal places, and 0.0 when no such scores exist; in particular LINE/WORD
confidences [100, 80, 60, 90] yield 0.825. -/
theorem confidence_is_rounded_mean (blocks : List TBlock) :
    calculate_confidence_score blocks = specAggregateConfidence blocks
    ∧ calculate_confidence_score
        [{ blockType := "LINE", text := some "a", confidence := some 100 },
         { blockType := "LINE", text := some "b", confidence := some 80 },
         { blockType := "WORD", text := some "c", confidence := some 60 },
         { blockType := "LINE", text := some "d", confidence := some 90 }]
        = (0.825 : ℚ)
    ∧ calculate_confidence_score [] = 0
    ∧ calculate_confidence_score
        [{ blockType := "PAGE", text := none, confidence := some 50 }] = 0 := by
  refine ⟨?_, ?_, rfl, rfl⟩
  · cases blocks <;> rfl
  · norm_num [calculate_confidence_score, pyRound4, roundHalfEven,
      List.filter, List.sum]

/-! ## The filename patterns -/

theorem stripKw_isSuffix : ∀ (kw l r : List Char), stripKw kw l = some r → r <:+ l := by
  intro kw
  induction kw with
  | nil =>
      intro l r h
      simp only [stripKw, Option.some.injEq] at h
      rw [← h]
  | cons k ks ih =>
      intro l r h
      cases l with
      | nil => simp [stripKw] at h
      | cons c cs =>
          simp only [stripKw] at h
          split_ifs at h with hck
          exact (ih cs r h).trans (List.suffix_cons c cs)

theorem afterSep_mem (p : Char → Bool) (r : List Char) (h : afterSep p r = true) :
    ∃ c ∈ r, p c = true := by
  cases r with
  | nil => simp [afterSep] at h
  | cons c rest =>
      simp only [afterSep] at h
      split_ifs at h with hsep
      · cases rest with
        | nil => simp [headIs] at h
        | cons d rest2 =>
            simp only [headIs] at h
            exact ⟨d, by simp, h⟩
      · exact ⟨c, by simp, h⟩

theorem patMatchAt_mem (kws : List (List Char)) (p : Char → Bool) (l : List Char)
    (h : patMatchAt kws (some p) l = true) : ∃ c ∈ l, p c = true := by
  simp only [patMatchAt, List.any_eq_true] at h
  obtain ⟨kw, hkw, hm⟩ := h
  cases hs : stripKw kw l with
  | none => rw [hs] at hm; simp at hm
  | some r =>
      rw [hs] at hm
      obtain ⟨c, hc, hpc⟩ := afterSep_mem p r hm
      exact ⟨c, (stripKw_isSuffix kw l r hs).subset hc, hpc⟩

theorem reSearch_mem (kws : List (List Char)) (p : Char → Bool) :
    ∀ l, reSearch kws (some p) l = true → ∃ c ∈ l, p c = true := by
  intro l
  induction l with
  | nil => intro h; simp [reSearch] at h
  | cons c t ih =>
      intro h
      simp only [reSearch, Bool.or_eq_true] at h
      rcases h with h | h
      · exact patMatchAt_mem _ _ _ h
      · obtain ⟨d, hd, hp⟩ := ih h
        exact ⟨d, List.mem_cons_of_mem c hd, hp⟩

theorem invoice_needs_digit (l : List Char) (h : ∀ c ∈ l, c.isDigit = false) :
    matchesInvoicePat l = false := by
  cases hmv : matchesInvoicePat l
  · rfl
  · exfalso
    obtain ⟨c, hc, hd⟩ := reSearch_mem _ _ l hmv
    rw [h c hc] at hd
    simp at hd

/-- C9 as claimed is false: the filename "invoice.pdf" contains the keyword
invoice with no suffix, yet the classifier returns no type — the invoice
pattern demands a numeric suffix after the keyword. -/
theorem bare_invoice_keyword_unclassified :
    pyInStr "invoice" (pyLower (pyBasename "invoice.pdf")) = true
    ∧ classify_by_filename "invoice.pdf" = none := by decide

/-- C9 (amended): the classifier tries the ordered patterns on the
lowercased basename, first match wins, no match gives undetermined; the
court_filing, correspondence and pleading patterns match on a bare keyword
occurrence, but the invoice pattern additionally requires a digit after
the keyword (after an optional `-`/`_`) — so without any digit in the
filename the invoice pattern never matches — and the contract pattern
similarly requires a following alphanumeric character, so bare
"contract.pdf" stays undetermined. -/
theorem filename_patterns_first_match
    : (∀ l : List Char, (∀ c ∈ l, c.isDigit = false) → matchesInvoicePat l = false)
    ∧ (∀ key : String,
        (matchesInvoicePat (pyLower (pyBasename key)).data = true →
          classify_by_filename key = some "invoice")
        ∧ (matchesInvoicePat (pyLower (pyBasename key)).data = false →
            matchesContractPat (pyLower (pyBasename key)).data = true →
            classify_by_filename key = some "contract")
        ∧ (matchesInvoicePat (pyLower (pyBasename key)).data = false →
            matchesContractPat (pyLower (pyBasename key)).data = false →
            matchesCourtPat (pyLower (pyBasename key)).data = true →
            classify_by_filename key = some "court_filing")
        ∧ (matchesInvoicePat (pyLower (pyBasename key)).data = false →
            matchesContractPat (pyLower (pyBasename key)).data = false →
            matchesCourtPat (pyLower (pyBasename key)).data = false →
            matchesCorrPat (pyLower (pyBasename key)).data = true →
            classify_by_filename key = some "correspondence")
        ∧ (matchesInvoicePat (pyLower (pyBasename key)).data = false →
            matchesContractPat (pyLower (pyBasename key)).data = false →
            matchesCourtPat (pyLower (pyBasename key)).data = false →
            matchesCorrPat (pyLower (pyBasename key)).data = false →
            matchesPleadingPat (pyLower (pyBasename key)).data = true →
            classify_by_filename key = some "pleading")
        ∧ (matchesInvoicePat (pyLower (pyBasename key)).data = false →
            matchesContractPat (pyLower (pyBasename key)).data = false →
            matchesCourtPat (pyLower (pyBasename key)).data = false →
            matchesCorrPat (pyLower (pyBasename key)).data = false →
            matchesPleadingPat (pyLower (pyBasename key)).data = false →
            classify_by_filename key = none))
    ∧ classify_by_filename "motion.pdf" = some "court_filing"
    ∧ classify_by_filename "letter.pdf" = some "correspondence"
    ∧ classify_by_filename "brief.pdf" = some "pleading"
    ∧ classify_by_filename "contract.pdf" = none := by
  refine ⟨invoice_needs_digit, ?_, by decide, by decide, by decide, by decide⟩
  intro key
  simp only [classify_by_filename]
  refine ⟨?_, ?_, ?_, ?_, ?_, ?_⟩
  · intro h1; simp [h1]
  · intro h1 h2; simp [h1, h2]
  · intro h1 h2 h3; simp [h1, h2, h3]
  · intro h1 h2 h3 h4; simp [h1, h2, h3, h4]
  · intro h1 h2 h3 h4 h5; simp [h1, h2, h3, h4, h5]
  · intro h1 h2 h3 h4 h5; simp [h1, h2, h3, h4, h5]

theorem filename_patterns_first_match_w :
    matchesInvoicePat "invoice.pdf".data = false
    ∧ classify_by_filename "motion-2024.pdf" = some "court_filing" :=
  ⟨filename_patterns_first_match.1 "invoice.pdf".data (by decide),
   (filename_patterns_first_match.2.1 "motion-2024.pdf").2.2.1
     (by decide) (by decide) (by decide)⟩

/-! ## The fingerprint generator -/

theorem digitChar_isDigit (k : Nat) (hk : k < 10) : (digitChar k).isDigit = true := by
  interval_cases k <;> decide

theorem natStrL_head (n : Nat) :
    ∃ c t, natStrL n = c :: t ∧ c.isDigit = true := by
  induction n using Nat.strong_induction_on with
  | _ n ih =>
      rw [natStrL]
      split_ifs with h
      · exact ⟨digitChar n, [], rfl, digitChar_isDigit n h⟩
      · obtain ⟨c, t, hct, hd⟩ := ih (n / 10)
          (Nat.div_lt_self (by omega) (by omega))
        refine ⟨c, t ++ [digitChar (n % 10)], ?_, hd⟩
        rw [hct]
        rfl

theorem intStrL_head (i : Int) :
    ∃ c t, intStrL i = c :: t ∧ (c = '-' ∨ c.isDigit = true) := by
  unfold intStrL
  split_ifs with h
  · exact ⟨'-', _, rfl, Or.inl rfl⟩
  · obtain ⟨c, t, hct, hd⟩ := natStrL_head i.toNat
    exact ⟨c, t, hct, Or.inr hd⟩

theorem isDigit_ne_slash (c : Char) (h : c.isDigit = true) : c ≠ '/' := by
  intro he
  rw [he] at h
  exact absurd h (by decide)

theorem featureElems_head (d : FitzStruct) :
    ∀ e ∈ featureElems d, ∃ c t, e = c :: t ∧ c ≠ '/' := by
  intro e he
  simp only [featureElems, List.mem_append] at he
  rcases he with he | he
  · rw [List.mem_flatten] at he
    obtain ⟨l, hl, hel⟩ := he
    rw [List.mem_map] at hl
    obtain ⟨b, hb, rfl⟩ := hl
    cases b with
    | none => simp at hel
    | some ls =>
        rw [List.mem_map] at hel
        obtain ⟨p, hp, rfl⟩ := hel
        obtain ⟨c, t, hct, hd⟩ := intStrL_head p.1
        refine ⟨c, t ++ ',' :: intStrL p.2, ?_, ?_⟩
        · simp only [coordFeature, hct]
          rfl
        · rcases hd with h1 | h1
          · rw [h1]; decide
          · exact isDigit_ne_slash c h1
  · simp only [List.mem_cons] at he
    rcases he with rfl | rfl | rfl | he
    · exact ⟨'p', "ages:".data ++ natStrL d.page_count, rfl, by decide⟩
    · exact ⟨'w', "idth:".data ++ intStrL d.width, rfl, by decide⟩
    · exact ⟨'h', "eight:".data ++ intStrL d.height, rfl, by decide⟩
    · simp at he

theorem joinBar_head (es : List (List Char)) (hne : es ≠ [])
    (h : ∀ e ∈ es, ∃ c t, e = c :: t ∧ c ≠ '/') :
    ∃ c t, joinBar es = c :: t ∧ c ≠ '/' := by
  match es with
  | [] => exact absurd rfl hne
  | [x] =>
      obtain ⟨c, t, rfl, hc⟩ := h x (by simp)
      exact ⟨c, t, rfl, hc⟩
  | x :: y :: tl =>
      obtain ⟨c, t, rfl, hc⟩ := h x (by simp)
      exact ⟨c, t ++ '|' :: joinBar (y :: tl), rfl, hc⟩

theorem featureStringL_ne_slash (d : FitzStruct) (rest : List Char) :
    featureStringL d ≠ '/' :: rest := by
  unfold featureStringL
  split_ifs with hp
  · intro he
    have hne : featureElems d ≠ [] := by
      simp [featureElems]
    obtain ⟨c, t, hj, hc⟩ := joinBar_head (featureElems d) hne (featureElems_head d)
    rw [hj] at he
    injection he with h1 _
    exact hc h1
  · intro he
    simp at he

theorem localPath_data (key : String) :
    (localPath key).data = '/' :: 't' :: 'm' :: 'p' :: '/' :: (pyBasename key).data := rfl

/-- C5 as claimed is false: a document that `fitz` opens with zero pages —
one of the claimed failure modes — produces the hash of the empty feature
string, not the hash of the document's identifying key string (nor of the
local path derived from it). -/
theorem zero_page_fingerprint_not_key_hash :
    generate_structural_hash (Except.ok ⟨[], 0, 612, 792⟩) (localPath "doc.pdf")
        = sha256hex ""
    ∧ generate_structural_hash (Except.ok ⟨[], 0, 612, 792⟩) (localPath "doc.pdf")
        ≠ sha256hex "doc.pdf"
    ∧ generate_structural_hash (Except.ok ⟨[], 0, 612, 792⟩) (localPath "doc.pdf")
        ≠ sha256hex (localPath "doc.pdf") := by
  decide

/-- C5 (amended): when feature extraction raises, the fingerprint is the
hash of the local file path `/tmp/<basename of the key>`; a document that
opens with zero pages instead yields the hash of the empty feature string.
The exception fallback's hash input starts with `/tmp/` and therefore
differs from the feature string of every successful extraction, and the
template-cache lookup on the fallback fingerprint misses whenever no cache
row carries that fingerprint (and always under a cache-backend error). -/
theorem fallback_fingerprint_behavior
    (key : String) (d : FitzStruct) (rows : List CacheRow)
    (hmiss : ∀ r ∈ rows, r.structuralHash ≠ sha256hex (localPath key)) :
    generate_structural_hash (Except.error ()) (localPath key)
        = sha256hex (localPath key)
    ∧ featureString d ≠ localPath key
    ∧ check_template_cache (Except.ok rows)
        (generate_structural_hash (Except.error ()) (localPath key)) = none
    ∧ check_template_cache (Except.error ())
        (generate_structural_hash (Except.error ()) (localPath key)) = none := by
  refine ⟨rfl, ?_, ?_, rfl⟩
  · intro he
    have hd : (featureString d).data = (localPath key).data := by rw [he]
    rw [localPath_data key] at hd
    exact featureStringL_ne_slash d _ hd
  · cases hf : rows.filter
        (fun r => r.structuralHash =
          generate_structural_hash (Except.error ()) (localPath key)) with
    | nil => simp [check_template_cache, hf]
    | cons r rs =>
        exfalso
        have hr : r ∈ rows.filter
            (fun r => r.structuralHash =
              generate_structural_hash (Except.error ()) (localPath key)) := by
          rw [hf]
          exact List.mem_cons_self r rs
        obtain ⟨hrm, hrp⟩ := List.mem_filter.mp hr
        exact hmiss r hrm (of_decide_eq_true hrp)

theorem fallback_fingerprint_behavior_w :
    generate_structural_hash (Except.error ()) (localPath "doc.pdf")
        = sha256hex (localPath "doc.pdf")
    ∧ featureString ⟨[], 1, 612, 792⟩ ≠ localPath "doc.pdf"
    ∧ check_template_cache (Except.ok [])
        (generate_structural_hash (Except.error ()) (localPath "doc.pdf")) = none
    ∧ check_template_cache (Except.error ())
        (generate_structural_hash (Except.error ()) (localPath "doc.pdf")) = none :=
  fallback_fingerprint_behavior "doc.pdf" ⟨[], 1, 612, 792⟩ [] (by simp)

end LexoHub
